import Mathlib

/-!
A shallow embedding of the dispatch core of py-jsonapi — `jsonapi/api.py`,
`jsonapi/includer.py` and `jsonapi/response.py` — together with theorems
checking the natural-language specification of the package against it.

Conventions of the embedding:
* Python dictionaries become insertion-ordered association lists
  (`List (key × value)`), with `List.lookup` for `dict.get` and an
  upsert helper for `dict[k] = v`.
* Python sets of resources become `Finset`s.
* Fallible code returns `Except PyErr _` (for plain Python exceptions such as
  `KeyError`, `ValueError`, `AttributeError`) or `Except Error _` (for the
  domain error hierarchy of the `errors` module).
* Python classes are modelled by their names (strings); `type(o)` dispatch in
  the registry is reproduced through these names.
-/

/-- A live resource instance: an opaque domain object, identified by the name
of its Python class and a resource id.  Only identity matters to the core. -/
structure Resource where
  cls : String
  rid : String
deriving DecidableEq, Repr

/-- Plain Python exceptions raisable by the embedded code.  The domain errors
of the `errors` module are a separate type (`Error` below); a `KeyError`
raised by the registry is *not* a domain error and is not caught by
`handle_request`. -/
inductive PyErr where
  | keyError
  | valueError
  | attributeError
deriving DecidableEq, Repr

/-- `d[k] = v` on an insertion-ordered dictionary: overwrite the value at an
existing key in place, otherwise append the new pair. -/
def upsert {β : Type} (d : List (String × β)) (k : String) (v : β) :
    List (String × β) :=
  if (d.lookup k).isSome then
    d.map (fun kv => if kv.1 = k then (k, v) else kv)
  else
    d ++ [(k, v)]

/-- `d.update(new)` on an insertion-ordered dictionary (Python `dict.update`). -/
def dictUpdate (d new : List (String × String)) : List (String × String) :=
  new.foldl (fun d kv => upsert d kv.1 kv.2) d

/-- The request context.  `jsonapi/request.py` is not part of the sources
under scrutiny; only the two fields that the dispatch core reads and writes
are carried: the parsed URI path that the routing patterns are matched
against (`request.parsed_uri.path`), and the `japi_uri_arguments` dictionary
that matched path parameters are merged into. -/
structure Request where
  parsed_uri_path : String
  japi_uri_arguments : List (String × String)

/-- A relationship descriptor (`ToOneRelationship` / `ToManyRelationship` of
`jsonapi/includer.py`).  `to_one` distinguishes the two concrete subclasses
(`to_many` is its negation).  The source's single accessor
`get(self, resource, request)` returns a resource-or-None for a to-one
relationship and an iterable of resources for a to-many relationship; this
typed embedding splits it into `fget_one` and `fget_many`, of which only the
one matching `to_one` is ever consulted — exactly mirroring the dynamic use
in `fetch_path`. -/
structure Relationship where
  to_one : Bool
  remote_types : Option (List String)
  fget_one : Resource → Request → Option Resource
  fget_many : Resource → Request → List Resource

/-- An `Includer`: owns the `_relationships` dictionary mapping relationship
names to their descriptors (populated in the source by
`_detect_includer_methods` / `add_includer_method`). -/
structure Includer where
  _relationships : List (String × Relationship)

/-- An `Encoder` (external collaborator; only the interface the dispatch core
consumes).  `typename` and `resource_class` may be absent — `add_type` has
dedicated branches for that.  `id` receives the raw object the source passes
to `encoder.id(obj)`, which can be `None` on the `ensure_identifier` code
path, hence the `Option`. -/
structure Encoder where
  typename : Option String
  resource_class : Option String
  id : Option Resource → String

/-- An http response (`jsonapi/response.py`), with the constructor's
defaults. -/
structure Response where
  status : Nat := 200
  headers : List (String × String) := []
  body : Option String := none

/-- Modelled from the spec: the module `jsonapi/errors.py` is not among the
sources.  The spec describes a closed hierarchy of JSON:API domain error
kinds ("at minimum `NotFound`"), each carrying an http status code and each
convertible to a structured error document; JSON:API error responses use
client/server error statuses (4xx/5xx), never 2xx. -/
structure Error where
  http_status : Nat
  is_error_status : 400 ≤ http_status

/-- Modelled from the spec: the `NotFound` domain error raised when routing
finds no handler (http status 404). -/
def NotFound : Error := ⟨404, by decide⟩

/-- Modelled from the spec: `errors.error_to_response` converts a domain
error into a structured error `Response` whose status is the error's own
http status; the body is an opaque structured JSON:API error document. -/
def error_to_response (err : Error) : Response :=
  { status := err.http_status,
    headers := [("content-type", "application/vnd.api+json")],
    body := some "jsonapi error document" }

/-- A deferred response builder (external collaborator): whether it supports
the include mixin, the effect of `fetch_include`, and `to_response`. -/
structure ResponseBuilder where
  is_include_mixin : Bool
  fetch_include : Except Error Unit
  to_response : Except Error Response

/-- What a handler's `handle` returns: either a finished `Response` or a
deferred `ResponseBuilder` (the source distinguishes the two by
`isinstance`). -/
inductive HandlerResult where
  | response (resp : Response)
  | builder (rb : ResponseBuilder)

/-- A request handler (external collaborator). -/
structure Handler where
  handle : Request → Except Error HandlerResult

/-- A key of the `_handler` dictionary: the source uses tuples
`(typename, "collection")`, `(typename, "resource")`,
`(typename, "relationship", relname)`, `(typename, "related", relname)`. -/
inductive HandlerSpec where
  | collection (typename : String)
  | resource (typename : String)
  | relationship (typename relname : String)
  | related (typename relname : String)
deriving DecidableEq, Repr

/-- A custom route: the source stores a regular expression and full-matches
it against the request path, yielding the dictionary of named groups.  It is
modelled abstractly as a matcher from the path to an optional group
dictionary. -/
def RouteMatcher : Type := String → Option (List (String × String))

/-- The `API` class state: base uri, debug flag, the four registry
dictionaries, the handler table, the custom routes, and the overridable
`prepare_request` hook (whose default implementation is a no-op). -/
structure API where
  _uri : String
  _debug : Bool
  _encoder : List (String × Encoder)
  _resource_class_to_encoder : List (String × Encoder)
  _includer : List (String × Includer)
  _resource_class_to_includer : List (String × Includer)
  _handler : List (HandlerSpec × Handler)
  _routes : List (RouteMatcher × Handler)
  prepare_request : Request → Except Error Unit

/-- The `debug` property (reads the `_debug` attribute). -/
def API.debug (api : API) : Bool := api._debug

/-- `uri.rstrip("/")` — drop all trailing slashes. -/
def rstripSlashes (cs : List Char) : List Char :=
  (cs.reverse.dropWhile (fun c => c = '/')).reverse

/-- `API.__init__(uri, debug)`: strips trailing slashes from the uri and
starts with empty registries, handler table and routes. -/
def API.mkInit (uri : String) (debug : Bool) : API :=
  { _uri := String.mk (rstripSlashes uri.data)
    _debug := debug
    _encoder := []
    _resource_class_to_encoder := []
    _includer := []
    _resource_class_to_includer := []
    _handler := []
    _routes := []
    prepare_request := fun _ => .ok () }

/-- A key passed to the registry lookups `get_encoder` / `get_includer`: a
typename string, a resource class, a live resource instance, or `None` (the
latter reaches the registry through `ensure_identifier(None)`). -/
inductive RegKey where
  | typename (t : String)
  | cls (c : String)
  | inst (r : Resource)
  | pynone
deriving DecidableEq, Repr

/-- `type(o)`: the Python class of a key object, by class name.  A typename
string has class `str`, a class object has class `type`, a resource instance
has its own class, and `None` has class `NoneType`. -/
def typeOf : RegKey → String
  | .typename _ => "str"
  | .cls _ => "type"
  | .inst r => r.cls
  | .pynone => "NoneType"

/-- The lookup chain of `API.get_encoder`:
`self._encoder.get(o) or self._resource_class_to_encoder.get(o) or
self._resource_class_to_encoder.get(type(o))`.  A string key can only hit
the typename dictionary, a class key only the class dictionary; the third
tier looks up the runtime class of the key.  (Encoder objects are truthy, so
Python's `or` chain is exactly `Option.orElse`.) -/
def encoder_for (api : API) (o : RegKey) : Option Encoder :=
  (match o with | .typename t => api._encoder.lookup t | _ => none) <|>
  (match o with | .cls c => api._resource_class_to_encoder.lookup c | _ => none) <|>
  api._resource_class_to_encoder.lookup (typeOf o)

/-- `API.get_encoder(o, default)`: first hit of the lookup chain; the
supplied default if there is no hit; `KeyError` if there is no hit and no
default was supplied (`default = none` models the `ARG_DEFAULT` sentinel). -/
def get_encoder (api : API) (o : RegKey) (default : Option Encoder) :
    Except PyErr Encoder :=
  match encoder_for api o with
  | some encoder => .ok encoder
  | none =>
    match default with
    | some d => .ok d
    | none => .error .keyError

/-- The lookup chain of `API.get_includer`, same three tiers as
`encoder_for`. -/
def includer_for (api : API) (o : RegKey) : Option Includer :=
  (match o with | .typename t => api._includer.lookup t | _ => none) <|>
  (match o with | .cls c => api._resource_class_to_includer.lookup c | _ => none) <|>
  api._resource_class_to_includer.lookup (typeOf o)

/-- `API.get_includer(o, default)`: same contract as `get_encoder`. -/
def get_includer (api : API) (o : RegKey) (default : Option Includer) :
    Except PyErr Includer :=
  match includer_for api o with
  | some includer => .ok includer
  | none =>
    match default with
    | some d => .ok d
    | none => .error .keyError

/-- `API.add_type(encoder, includer)`.  When the encoder lacks a resource
class or a typename, the source calls `LOG.warning(...)` with the argument
`self.typename or type(self).__name__`; `self` there is the API instance,
which has no `typename` attribute, so evaluating that argument raises
`AttributeError` before anything is registered.  Otherwise the encoder (and,
if given, the includer) is registered under its typename and resource
class. -/
def add_type (api : API) (encoder : Encoder) (includer : Option Includer) :
    Except PyErr API :=
  match encoder.resource_class, encoder.typename with
  | none, _ => .error .attributeError
  | _, none => .error .attributeError
  | some resource_class, some typename =>
    let api :=
      { api with
        _encoder := upsert api._encoder typename encoder
        _resource_class_to_encoder :=
          upsert api._resource_class_to_encoder resource_class encoder }
    match includer with
    | none => .ok api
    | some inc =>
      .ok { api with
            _includer := upsert api._includer typename inc
            _resource_class_to_includer :=
              upsert api._resource_class_to_includer resource_class inc }

/-- An argument to the identifier-normalization utilities: `None`, a
two-tuple, a dictionary containing `type` and `id` keys (further keys are
ignored by the source and therefore not carried), or a live resource.
Tuple and dictionary components are carried as the strings `str()` maps
them to. -/
inductive IdArg where
  | pynone
  | tup (a b : String)
  | doc (type id : String)
  | res (r : Resource)

/-- A JSON:API resource identifier object `{"type": ..., "id": ...}`.  On
the resource branch the source inserts `encoder.typename` unchanged, which
may be `None`, hence the `Option` in the `type` field. -/
structure IdObj where
  type : Option String
  id : String
deriving DecidableEq, Repr

/-- `API.ensure_identifier_object(obj)`: `None` passes through, a tuple and
a dictionary are rebuilt from their `type`/`id` components, and any other
object is treated as a resource whose encoder supplies typename and id
(propagating the registry's `KeyError` when there is none). -/
def ensure_identifier_object (api : API) : IdArg → Except PyErr (Option IdObj)
  | .pynone => .ok none
  | .tup a b => .ok (some { type := some a, id := b })
  | .doc t i => .ok (some { type := some t, id := i })
  | .res r =>
    match get_encoder api (.inst r) none with
    | .error e => .error e
    | .ok encoder => .ok (some { type := encoder.typename, id := encoder.id (some r) })

/-- `API.ensure_identifier(obj)`: a tuple and a dictionary are rebuilt into
an id tuple; **everything else** — including `None`, for which this method
has no dedicated branch — falls through to the resource branch, which calls
`get_encoder(obj)`. -/
def ensure_identifier (api : API) :
    IdArg → Except PyErr (Option (Option String × String))
  | .tup a b => .ok (some (some a, b))
  | .doc t i => .ok (some (some t, i))
  | .pynone =>
    match get_encoder api .pynone none with
    | .error e => .error e
    | .ok encoder => .ok (some (encoder.typename, encoder.id none))
  | .res r =>
    match get_encoder api (.inst r) none with
    | .error e => .error e
    | .ok encoder => .ok (some (encoder.typename, encoder.id (some r)))

/-- The loop body of `Includer.path_exists` over the declared remote types:
for each remote typename in order, `self.__api.get_includer(remote_type)`
(no default — a missing registration raises `KeyError`), then the recursive
check `remote_includer.path_exists(path)` (passed in as `check`); the first
failed check short-circuits with `False`, and only if every remote type
confirms is the answer `True`. -/
def goRemotes (api : API) (check : Includer → Except PyErr Bool) :
    List String → Except PyErr Bool
  | [] => .ok true
  | remote_type :: rts =>
    match get_includer api (.typename remote_type) none with
    | .error e => .error e
    | .ok remote_includer =>
      match check remote_includer with
      | .error e => .error e
      | .ok b => if b then goRemotes api check rts else .ok false

/-- `Includer.path_exists(path)` (the includer is the last argument so that
the recursion is structural on the path): an empty path exists vacuously; an
unknown first name yields `False`; a known first name with unknown
`remote_types` logs a warning and optimistically yields `True`; otherwise
every declared remote type's includer — resolved via the owning API's
registry — must confirm the remaining path. -/
def path_exists (api : API) : List String → Includer → Except PyErr Bool
  | [], _ => .ok true
  | name :: rest, inc =>
    match inc._relationships.lookup name with
    | none => .ok false
    | some relationship =>
      match relationship.remote_types with
      | none => .ok true
      | some remote_types =>
        goRemotes api (fun ri => path_exists api rest ri) remote_types

/-- `Includer.fetch_path(resources, path, request)`: unpacking
`name, *path = path` raises `ValueError` on an empty path; the subscript
`self._relationships[name]` raises `KeyError` for an unknown name.  For a
to-one relationship the accessor result of every input resource is added to
a set and `None` entries are then discarded; for a to-many relationship each
accessor's collection is unioned in.  Only the head segment is ever
traversed — the tail of the path is unused. -/
def fetch_path (inc : Includer) (resources : List Resource)
    (path : List String) (request : Request) :
    Except PyErr (Finset (Option Resource)) :=
  match path with
  | [] => .error .valueError
  | name :: _rest =>
    match inc._relationships.lookup name with
    | none => .error .keyError
    | some relationship =>
      if relationship.to_one then
        .ok ((resources.foldl
          (fun related resource => insert (relationship.fget_one resource request) related)
          (∅ : Finset (Option Resource))).erase none)
      else
        .ok (resources.foldl
          (fun related resource =>
            (relationship.fget_many resource request).foldl
              (fun s x => insert (some x) s) related)
          (∅ : Finset (Option Resource)))

/-- Check one character-list against another as a literal prefix, returning
the remainder on success.  This models matching `re.escape(self._uri) + "/"`
at the start of a full-match: the escape makes the base uri a literal. -/
def isPfx : List Char → List Char → Option (List Char)
  | [], s => some s
  | _, [] => none
  | p :: ps, c :: cs => if p = c then isPfx ps cs else none

/-- Split a character list on `/` (like `str.split("/")`): `a/b` gives the
two segments `a`, `b`; empty segments are kept so that callers can reject
them (the regex groups are `[^/]+?`, at least one non-slash character). -/
def splitSlash : List Char → List (List Char)
  | [] => [[]]
  | c :: cs =>
    let r := splitSlash cs
    if c = '/' then [] :: r
    else
      match r with
      | s :: rest => (c :: s) :: rest
      | [] => [[c]]

/-- Drop one optional trailing slash: every built-in pattern ends in
`/?$`. -/
def dropTrailSlash (cs : List Char) : List Char :=
  match cs.reverse with
  | '/' :: r => r.reverse
  | _ => cs

/-- The part of the request path behind the base uri: the built-in patterns
all start with the escaped base uri followed by a literal `/`. -/
def relPath (uri path : String) : Option (List Char) :=
  isPfx (uri.data ++ ['/']) path.data

/-- The segments of the path behind the base uri, after the optional
trailing slash.  Each regex group `[^/]+?` is exactly one nonempty segment
(the groups exclude `/`, so the anchored pattern admits exactly one
decomposition, greediness notwithstanding). -/
def segsOf (rest : List Char) : List (List Char) := splitSlash (dropTrailSlash rest)

/-- Full-match of the Collection pattern `base/(?P<type>[^/]+?)/?$`. -/
def matchCollection (uri path : String) : Option String :=
  match relPath uri path with
  | none => none
  | some rest =>
    match segsOf rest with
    | [t] => if t = [] then none else some (String.mk t)
    | _ => none

/-- Full-match of the Resource pattern
`base/(?P<type>[^/]+?)/(?P<id>[^/]+?)/?$`. -/
def matchResource (uri path : String) : Option (String × String) :=
  match relPath uri path with
  | none => none
  | some rest =>
    match segsOf rest with
    | [t, i] =>
      if t = [] ∨ i = [] then none else some (String.mk t, String.mk i)
    | _ => none

/-- Full-match of the Relationship pattern
`base/(?P<type>[^/]+?)/(?P<id>[^/]+?)/relationships/(?P<relname>[^/]+?)/?$`. -/
def matchRelationship (uri path : String) : Option (String × String × String) :=
  match relPath uri path with
  | none => none
  | some rest =>
    match segsOf rest with
    | [t, i, lit, r] =>
      if t = [] ∨ i = [] ∨ r = [] ∨ lit ≠ "relationships".data then none
      else some (String.mk t, String.mk i, String.mk r)
    | _ => none

/-- Full-match of the Related pattern
`base/(?P<type>[^/]+?)/(?P<id>[^/]+?)/(?P<relname>[^/]+?)/?$`. -/
def matchRelated (uri path : String) : Option (String × String × String) :=
  match relPath uri path with
  | none => none
  | some rest =>
    match segsOf rest with
    | [t, i, r] =>
      if t = [] ∨ i = [] ∨ r = [] then none
      else some (String.mk t, String.mk i, String.mk r)
    | _ => none

/-- The custom-route loop of `_get_handler`: the routes are tried in
registration order; the first full match yields its group dictionary and
handler. -/
def findRoute : List (RouteMatcher × Handler) → String →
    Option (List (String × String) × Handler)
  | [], _ => none
  | (m, h) :: rest, p =>
    match m p with
    | some groups => some (groups, h)
    | none => findRoute rest p

/-- `API._get_handler(request)`: custom routes first (first match wins);
otherwise the four built-in structural patterns in the fixed order
Collection, Resource, Relationship, Related.  On a match, the named groups
are merged into `request.japi_uri_arguments` and the handler table is
queried with the corresponding key — whatever it holds (possibly nothing) is
returned without trying further patterns. -/
def _get_handler (api : API) (request : Request) : Option Handler × Request :=
  match findRoute api._routes request.parsed_uri_path with
  | some (groups, handler) =>
    (some handler,
     { request with
       japi_uri_arguments := dictUpdate request.japi_uri_arguments groups })
  | none =>
  match matchCollection api._uri request.parsed_uri_path with
  | some t =>
    (api._handler.lookup (.collection t),
     { request with
       japi_uri_arguments :=
         dictUpdate request.japi_uri_arguments [("type", t)] })
  | none =>
  match matchResource api._uri request.parsed_uri_path with
  | some (t, i) =>
    (api._handler.lookup (.resource t),
     { request with
       japi_uri_arguments :=
         dictUpdate request.japi_uri_arguments [("type", t), ("id", i)] })
  | none =>
  match matchRelationship api._uri request.parsed_uri_path with
  | some (t, i, r) =>
    (api._handler.lookup (.relationship t r),
     { request with
       japi_uri_arguments :=
         dictUpdate request.japi_uri_arguments
           [("type", t), ("id", i), ("relname", r)] })
  | none =>
  match matchRelated api._uri request.parsed_uri_path with
  | some (t, i, r) =>
    (api._handler.lookup (.related t r),
     { request with
       japi_uri_arguments :=
         dictUpdate request.japi_uri_arguments
           [("type", t), ("id", i), ("relname", r)] })
  | none => (none, request)

/-- The body of the `try` block of `API.handle_request`: prepare the
request, route it (an absent handler raises the domain error `NotFound`),
invoke the handler, and — when the handler returned a builder — run
`fetch_include` (if the builder supports the include mixin) and convert the
builder to a `Response`. -/
def handle_request_core (api : API) (request : Request) :
    Except Error Response :=
  match api.prepare_request request with
  | .error e => .error e
  | .ok _ =>
    match _get_handler api request with
    | (none, _) => .error NotFound
    | (some handler, request) =>
      match handler.handle request with
      | .error e => .error e
      | .ok (.response resp) => .ok resp
      | .ok (.builder rb) =>
        match (if rb.is_include_mixin then rb.fetch_include else .ok ()) with
        | .error e => .error e
        | .ok _ =>
          match rb.to_response with
          | .error e => .error e
          | .ok resp => .ok resp

/-- `API.handle_request(request)`: the `except errors.Error` clause — in
debug mode a caught domain error is re-raised unmodified; otherwise it is
converted to a structured error response. -/
def handle_request (api : API) (request : Request) : Except Error Response :=
  match handle_request_core api request with
  | .ok resp => .ok resp
  | .error err =>
    if api.debug then .error err else .ok (error_to_response err)

/-! ### Concrete fixtures used by the theorems and their witnesses -/

/-- A fresh request at path `p` with an empty path-parameter dictionary. -/
def reqAt (p : String) : Request := { parsed_uri_path := p, japi_uri_arguments := [] }

/-- A dispatcher with base uri `http://x/api`, no custom routes and an
arbitrary handler table. -/
def apiC1 (tbl : List (HandlerSpec × Handler)) : API :=
  { API.mkInit "http://x/api" true with _handler := tbl }

/-- A dispatcher with an empty registry, debug mode on. -/
def apiEmptyDbg : API := API.mkInit "http://e" true

/-- A dispatcher with an empty registry, debug mode off. -/
def apiProdNoRoutes : API := API.mkInit "http://e" false

/-- An includer with no relationships. -/
def incEmpty : Includer := ⟨[]⟩

/-- A polymorphic relationship declaring the remote types `A` and `B`. -/
def relRB : Relationship :=
  { to_one := true, remote_types := some ["A", "B"],
    fget_one := fun _ _ => none, fget_many := fun _ _ => [] }

/-- An includer with the single relationship `r`, remote types `A` and `B`. -/
def incRootX : Includer := ⟨[("r", relRB)]⟩

/-- A dispatcher that registers an includer for `A` but none for `B`. -/
def apiAB : API :=
  { API.mkInit "http://e" true with _includer := [("A", incEmpty)] }

/-- A concrete resource instance. -/
def r1 : Resource := ⟨"Widget", "1"⟩

/-- A to-one relationship whose accessor answers `None` for every
resource. -/
def relOne : Relationship :=
  { to_one := true, remote_types := none,
    fget_one := fun _ _ => none, fget_many := fun _ _ => [] }

/-- An includer with the single to-one relationship `owner`. -/
def incOne : Includer := ⟨[("owner", relOne)]⟩

/-- A relationship with unknown remote types. -/
def relWarnA : Relationship :=
  { to_one := true, remote_types := none,
    fget_one := fun _ _ => none, fget_many := fun _ _ => [] }

/-- A relationship declaring the single remote type `T`. -/
def relPolyB : Relationship :=
  { to_one := false, remote_types := some ["T"],
    fget_one := fun _ _ => none, fget_many := fun _ _ => [] }

/-- An includer with the relationships `a` (unknown remote types) and `b`
(remote type `T`). -/
def incX : Includer := ⟨[("a", relWarnA), ("b", relPolyB)]⟩

/-- A dispatcher registering an includer for the typename `T`. -/
def api3 : API :=
  { API.mkInit "http://e" true with _includer := [("T", incEmpty)] }

/-- A concrete encoder usable as a lookup default. -/
def encD : Encoder :=
  { typename := some "widgets", resource_class := some "Widget",
    id := fun _ => "0" }

/-- An encoder that has a typename but no resource class. -/
def encNoClass : Encoder :=
  { typename := some "articles", resource_class := none, id := fun _ => "0" }

/-- A relationship whose only declared remote type `B` is unregistered. -/
def relSoloB : Relationship :=
  { to_one := true, remote_types := some ["B"],
    fget_one := fun _ _ => none, fget_many := fun _ _ => [] }

/-- An includer with the single relationship `r`, remote type `B`. -/
def incSolo : Includer := ⟨[("r", relSoloB)]⟩

/-! ### Helper lemmas -/

/-- Membership in a fold that inserts `f a` for every list element. -/
theorem mem_foldl_insert {α β : Type} [DecidableEq β] (f : α → β) (l : List α)
    (init : Finset β) (b : β) :
    b ∈ l.foldl (fun s a => insert (f a) s) init ↔
      b ∈ init ∨ ∃ a ∈ l, f a = b := by
  induction l generalizing init with
  | nil => simp
  | cons x l ih =>
    simp only [List.foldl_cons, ih, Finset.mem_insert, List.mem_cons]
    constructor
    · rintro (⟨h | h⟩ | ⟨a, ha, hfa⟩)
      · exact Or.inr ⟨x, Or.inl rfl, h.symm⟩
      · exact Or.inl h
      · exact Or.inr ⟨a, Or.inr ha, hfa⟩
    · rintro (h | ⟨a, rfl | ha, hfa⟩)
      · exact Or.inl (Or.inr h)
      · exact Or.inl (Or.inl hfa.symm)
      · exact Or.inr ⟨a, ha, hfa⟩

/-- The remote-type loop yields `True` exactly when every declared remote
type's includer confirms, provided every remote type resolves through the
registry. -/
theorem goRemotes_ok_true_iff (api : API) (check : Includer → Except PyErr Bool)
    (rts : List String)
    (h : ∀ rt ∈ rts, ∃ ri, get_includer api (.typename rt) none = .ok ri) :
    goRemotes api check rts = .ok true ↔
      ∀ rt ri, rt ∈ rts → get_includer api (.typename rt) none = .ok ri →
        check ri = .ok true := by
  induction rts with
  | nil => simp [goRemotes]
  | cons rt rts ih =>
    obtain ⟨ri, hri⟩ := h rt (by simp)
    have hrest := fun rt' hm => h rt' (List.mem_cons_of_mem rt hm)
    simp only [goRemotes, hri]
    cases hc : check ri with
    | error e =>
      constructor
      · intro hfalse; exact absurd hfalse (by simp)
      · intro hall
        have := hall rt ri (by simp) hri
        rw [hc] at this; exact absurd this (by simp)
    | ok b =>
      cases b with
      | false =>
        constructor
        · intro hfalse; exact absurd hfalse (by simp)
        · intro hall
          have := hall rt ri (by simp) hri
          rw [hc] at this; exact absurd this (by simp)
      | true =>
        simp only [if_true]
        rw [ih hrest]
        constructor
        · intro hall rt' ri' hm hri'
          rcases List.mem_cons.mp hm with rfl | hm'
          · have : ri' = ri := by
              rw [hri] at hri'; exact (Except.ok.injEq _ _ ).mp hri'.symm
            rw [this, hc]
          · exact hall rt' ri' hm' hri'
        · intro hall rt' ri' hm hri'
          exact hall rt' ri' (List.mem_cons_of_mem rt hm) hri'

/-- If every remote type before `rt` resolves and confirms, and `rt` itself
fails to resolve, the remote-type loop raises the lookup error. -/
theorem goRemotes_reach_error (api : API) (check : Includer → Except PyErr Bool)
    (pre : List String) (rt : String) (post : List String)
    (hpre : ∀ rtp ∈ pre, ∃ ri, get_includer api (.typename rtp) none = .ok ri ∧
      check ri = .ok true)
    (hmiss : get_includer api (.typename rt) none = .error .keyError) :
    goRemotes api check (pre ++ rt :: post) = .error .keyError := by
  induction pre with
  | nil => simp [goRemotes, hmiss]
  | cons rtp pre ih =>
    obtain ⟨ri, hri, hc⟩ := hpre rtp (by simp)
    simp only [List.cons_append, goRemotes, hri, hc, if_true]
    exact ih (fun a ha => hpre a (List.mem_cons_of_mem rtp ha))

/-! ### The claims -/

/-- C1: against a dispatcher with base URI `http://x/api` and no custom
routes, the paths `/widgets`, `/widgets/42`, `/widgets/42/relationships/owner`
and `/widgets/42/owner` below the base match the built-in Collection,
Resource, Relationship and Related patterns respectively, merging the path
parameters `{type}`, `{type, id}`, `{type, id, relname}` and
`{type, id, relname}` into the request's path-parameter map and querying the
handler table at the corresponding endpoint key. -/
theorem builtin_route_resolution (tbl : List (HandlerSpec × Handler)) :
    _get_handler (apiC1 tbl) (reqAt "http://x/api/widgets") =
      (tbl.lookup (.collection "widgets"),
       { parsed_uri_path := "http://x/api/widgets",
         japi_uri_arguments := [("type", "widgets")] }) ∧
    _get_handler (apiC1 tbl) (reqAt "http://x/api/widgets/42") =
      (tbl.lookup (.resource "widgets"),
       { parsed_uri_path := "http://x/api/widgets/42",
         japi_uri_arguments := [("type", "widgets"), ("id", "42")] }) ∧
    _get_handler (apiC1 tbl) (reqAt "http://x/api/widgets/42/relationships/owner") =
      (tbl.lookup (.relationship "widgets" "owner"),
       { parsed_uri_path := "http://x/api/widgets/42/relationships/owner",
         japi_uri_arguments :=
           [("type", "widgets"), ("id", "42"), ("relname", "owner")] }) ∧
    _get_handler (apiC1 tbl) (reqAt "http://x/api/widgets/42/owner") =
      (tbl.lookup (.related "widgets" "owner"),
       { parsed_uri_path := "http://x/api/widgets/42/owner",
         japi_uri_arguments :=
           [("type", "widgets"), ("id", "42"), ("relname", "owner")] }) :=
  ⟨rfl, rfl, rfl, rfl⟩

/-- C2: every domain error raised during prepare, routing, handling or
builder finalization inside `handle_request` — that is, every domain error
produced by the `try` body — propagates out unmodified when debug mode is on
(no response is produced), and is converted into a structured error response
with a non-2xx status (no exception escapes) when debug mode is off. -/
theorem handle_request_error_policy (api : API) (request : Request)
    (err : Error) (h : handle_request_core api request = .error err) :
    (api.debug = true → handle_request api request = .error err) ∧
    (api.debug = false →
      handle_request api request = .ok (error_to_response err) ∧
      ¬(200 ≤ (error_to_response err).status ∧
        (error_to_response err).status ≤ 299)) := by
  have h4 := err.is_error_status
  constructor
  · intro hd
    simp [handle_request, h, hd]
  · intro hd
    refine ⟨by simp [handle_request, h, hd], ?_⟩
    simp only [error_to_response]
    omega

/-- Witness for C2: a request no route resolves raises `NotFound` inside the
dispatcher; with debug mode on the error escapes, with debug mode off the
caller receives the structured 404 response. -/
theorem handle_request_error_policy_witness :
    handle_request apiEmptyDbg (reqAt "/nope") = .error NotFound ∧
    (handle_request apiProdNoRoutes (reqAt "/nope") =
        .ok (error_to_response NotFound) ∧
      ¬(200 ≤ (error_to_response NotFound).status ∧
        (error_to_response NotFound).status ≤ 299)) :=
  ⟨(handle_request_error_policy apiEmptyDbg (reqAt "/nope") NotFound rfl).1 rfl,
   (handle_request_error_policy apiProdNoRoutes (reqAt "/nope") NotFound rfl).2 rfl⟩

/-- C3: `path_exists` on an empty path is `True`; on a path whose first name
has no relationship descriptor it is `False`; on a descriptor with unknown
remote types it is (optimistically) `True`; and otherwise — when every
declared remote type resolves through the registry — it is `True` exactly
when every declared remote type's includer confirms the remaining path, a
logical AND over the remote types recursing over the full path. -/
theorem path_exists_semantics (api : API) (inc : Includer) :
    path_exists api [] inc = .ok true ∧
    (∀ name rest, inc._relationships.lookup name = none →
      path_exists api (name :: rest) inc = .ok false) ∧
    (∀ name rest rel, inc._relationships.lookup name = some rel →
      rel.remote_types = none →
      path_exists api (name :: rest) inc = .ok true) ∧
    (∀ name rest rel rts, inc._relationships.lookup name = some rel →
      rel.remote_types = some rts →
      (∀ rt ∈ rts, ∃ ri, get_includer api (.typename rt) none = .ok ri) →
      (path_exists api (name :: rest) inc = .ok true ↔
        ∀ rt ri, rt ∈ rts → get_includer api (.typename rt) none = .ok ri →
          path_exists api rest ri = .ok true)) := by
  refine ⟨rfl, ?_, ?_, ?_⟩
  · intro name rest h
    simp [path_exists, h]
  · intro name rest rel h hr
    simp [path_exists, h, hr]
  · intro name rest rel rts h hr hres
    simp only [path_exists, h, hr]
    exact goRemotes_ok_true_iff api _ rts hres

/-- Witness for C3, on an includer with a relationship `a` of unknown remote
types and a relationship `b` whose remote type `T` is registered. -/
theorem path_exists_semantics_witness :
    path_exists api3 [] incX = .ok true ∧
    path_exists api3 ["z"] incX = .ok false ∧
    path_exists api3 ["a"] incX = .ok true ∧
    (path_exists api3 ["b"] incX = .ok true ↔
      ∀ rt ri, rt ∈ ["T"] → get_includer api3 (.typename rt) none = .ok ri →
        path_exists api3 [] ri = .ok true) := by
  refine ⟨(path_exists_semantics api3 incX).1,
    (path_exists_semantics api3 incX).2.1 "z" [] rfl,
    (path_exists_semantics api3 incX).2.2.1 "a" [] relWarnA rfl rfl,
    (path_exists_semantics api3 incX).2.2.2 "b" [] relPolyB ["T"] rfl rfl ?_⟩
  intro rt hrt
  rw [List.mem_singleton] at hrt
  subst hrt
  exact ⟨incEmpty, rfl⟩

/-- C4: a key with no match in the three-tier lookup chain makes
`get_encoder` / `get_includer` raise the lookup error when no default is
supplied, and return the supplied default without raising otherwise. -/
theorem registry_lookup_failure (api : API) (o : RegKey) :
    (encoder_for api o = none →
      get_encoder api o none = .error .keyError ∧
      ∀ d, get_encoder api o (some d) = .ok d) ∧
    (includer_for api o = none →
      get_includer api o none = .error .keyError ∧
      ∀ d, get_includer api o (some d) = .ok d) := by
  constructor
  · intro h
    exact ⟨by simp [get_encoder, h], fun d => by simp [get_encoder, h]⟩
  · intro h
    exact ⟨by simp [get_includer, h], fun d => by simp [get_includer, h]⟩

/-- Witness for C4 on an empty registry and the typename key `widgets`. -/
theorem registry_lookup_failure_witness :
    get_encoder apiEmptyDbg (.typename "widgets") none = .error .keyError ∧
    get_encoder apiEmptyDbg (.typename "widgets") (some encD) = .ok encD ∧
    get_includer apiEmptyDbg (.typename "widgets") none = .error .keyError ∧
    get_includer apiEmptyDbg (.typename "widgets") (some incEmpty) = .ok incEmpty :=
  ⟨((registry_lookup_failure apiEmptyDbg (.typename "widgets")).1 rfl).1,
   ((registry_lookup_failure apiEmptyDbg (.typename "widgets")).1 rfl).2 encD,
   ((registry_lookup_failure apiEmptyDbg (.typename "widgets")).2 rfl).1,
   ((registry_lookup_failure apiEmptyDbg (.typename "widgets")).2 rfl).2 incEmpty⟩

/-- C5 (code bug): registering an encoder that lacks a typename or lacks a
resource class is *not* non-fatal — the warning branch evaluates
`self.typename` on the API object, which has no such attribute, so
`add_type` raises `AttributeError` and the encoder is never registered. -/
theorem add_type_missing_keys_raises (api : API) (encoder : Encoder)
    (includer : Option Includer)
    (h : encoder.resource_class = none ∨ encoder.typename = none) :
    add_type api encoder includer = .error .attributeError := by
  cases hrc : encoder.resource_class with
  | none => simp [add_type, hrc]
  | some c =>
    rcases h with h | h
    · rw [h] at hrc; exact absurd hrc (by simp)
    · simp [add_type, hrc, h]

/-- Witness for C5: an encoder with typename `articles` and no resource
class crashes `add_type`. -/
theorem add_type_missing_keys_raises_witness :
    add_type apiEmptyDbg encNoClass none = .error .attributeError :=
  add_type_missing_keys_raises apiEmptyDbg encNoClass none (Or.inl rfl)

/-- C6 (code bug): `ensure_identifier_object(None)` passes `None` through,
but `ensure_identifier(None)` has no `None` branch — it falls through to the
resource branch, consults the registry via `get_encoder(None)` and raises
the lookup error on an API with nothing registered for `NoneType`. -/
theorem ensure_identifier_none_behavior :
    ensure_identifier_object apiEmptyDbg .pynone = .ok none ∧
    ensure_identifier apiEmptyDbg .pynone = .error .keyError :=
  ⟨rfl, rfl⟩

/-- C7: for a to-one relationship, the set `fetch_path` returns never
contains `None` — the accessor results are collected and `None` entries are
discarded — and when the accessor answers `None` for every input resource
the result is the empty set. -/
theorem fetch_path_to_one_discards_none (inc : Includer)
    (resources : List Resource) (request : Request) (name : String)
    (rest : List String) (rel : Relationship) (s : Finset (Option Resource))
    (hrel : inc._relationships.lookup name = some rel)
    (hone : rel.to_one = true)
    (hs : fetch_path inc resources (name :: rest) request = .ok s) :
    none ∉ s ∧
    ((∀ r ∈ resources, rel.fget_one r request = none) → s = ∅) := by
  simp only [fetch_path, hrel, hone, if_true, Except.ok.injEq] at hs
  subst hs
  constructor
  · exact Finset.not_mem_erase none _
  · intro hall
    apply Finset.eq_empty_iff_forall_not_mem.mpr
    intro x hx
    obtain ⟨hxne, hxmem⟩ := Finset.mem_erase.mp hx
    rcases (mem_foldl_insert (fun r => rel.fget_one r request)
        resources ∅ x).mp hxmem with habs | ⟨r, hr, hfr⟩
    · exact absurd habs (Finset.not_mem_empty x)
    · rw [hall r hr] at hfr
      exact hxne hfr.symm

/-- Witness for C7: one resource, a to-one relationship whose accessor
answers `None`, empty result set. -/
theorem fetch_path_to_one_discards_none_witness :
    none ∉ (∅ : Finset (Option Resource)) ∧
    ((∀ r ∈ [r1], relOne.fget_one r (reqAt "p") = none) →
      (∅ : Finset (Option Resource)) = ∅) :=
  fetch_path_to_one_discards_none incOne [r1] (reqAt "p") "owner" [] relOne ∅
    rfl rfl rfl

/-- C8: `fetch_path` traverses only the head segment — for every non-empty
path the tail has no effect on the result, so fetching the whole path equals
fetching just its head. -/
theorem fetch_path_head_only (inc : Includer) (resources : List Resource)
    (request : Request) (name : String) (rest : List String) :
    fetch_path inc resources (name :: rest) request =
      fetch_path inc resources [name] request := rfl

/-- C9: `fetch_path` is partial where `path_exists` is total — an empty path
makes `fetch_path` raise (`name, *path = path` on an empty list is a
`ValueError`) while `path_exists` returns `True`, and a head naming no
registered relationship makes `fetch_path` raise the lookup `KeyError`
while `path_exists` returns `False` without raising. -/
theorem fetch_path_partial_path_exists_total (api : API) (inc : Includer)
    (resources : List Resource) (request : Request) :
    fetch_path inc resources [] request = .error .valueError ∧
    path_exists api [] inc = .ok true ∧
    ∀ name rest, inc._relationships.lookup name = none →
      fetch_path inc resources (name :: rest) request = .error .keyError ∧
      path_exists api (name :: rest) inc = .ok false := by
  refine ⟨rfl, rfl, fun name rest h => ⟨?_, ?_⟩⟩
  · simp [fetch_path, h]
  · simp [path_exists, h]

/-- Witness for C9 on an includer with no relationships and the head
name `x`. -/
theorem fetch_path_partial_path_exists_total_witness :
    fetch_path incEmpty [] [] (reqAt "p") = .error .valueError ∧
    path_exists apiEmptyDbg [] incEmpty = .ok true ∧
    (fetch_path incEmpty [] ["x"] (reqAt "p") = .error .keyError ∧
      path_exists apiEmptyDbg ["x"] incEmpty = .ok false) :=
  ⟨(fetch_path_partial_path_exists_total apiEmptyDbg incEmpty [] (reqAt "p")).1,
   (fetch_path_partial_path_exists_total apiEmptyDbg incEmpty [] (reqAt "p")).2.1,
   (fetch_path_partial_path_exists_total apiEmptyDbg incEmpty [] (reqAt "p")).2.2
     "x" [] rfl⟩

/-- C10 counterexample: the claim "if any declared remote type has no
registered Includer the call raises" is false — here the relationship `r`
declares the remote types `A` and `B`, `B` has no registered includer, yet
`path_exists` on the path `r.x` returns `False` without raising, because
`A`'s includer already disconfirms the tail and the loop short-circuits
before ever resolving `B`. -/
theorem path_exists_unregistered_remote_counterexample :
    incRootX._relationships.lookup "r" = some relRB ∧
    relRB.remote_types = some ["A", "B"] ∧
    includer_for apiAB (.typename "B") = none ∧
    path_exists apiAB ["r", "x"] incRootX = .ok false :=
  ⟨rfl, rfl, rfl, rfl⟩

/-- C10 (amended): in the recursive branch of `path_exists` each declared
remote typename is resolved through the registry with no default, in
declaration order; when the loop reaches a remote type with no registered
includer — that is, when every earlier declared remote type resolves and
confirms the remaining path — the call raises the registry's lookup error
instead of returning `False`. -/
theorem path_exists_unregistered_remote_raises (api : API) (inc : Includer)
    (name : String) (rest : List String) (rel : Relationship)
    (pre : List String) (rt : String) (post : List String)
    (hrel : inc._relationships.lookup name = some rel)
    (hrts : rel.remote_types = some (pre ++ rt :: post))
    (hpre : ∀ rtp ∈ pre, ∃ ri, get_includer api (.typename rtp) none = .ok ri ∧
      path_exists api rest ri = .ok true)
    (hmiss : includer_for api (.typename rt) = none) :
    path_exists api (name :: rest) inc = .error .keyError := by
  simp only [path_exists, hrel, hrts]
  exact goRemotes_reach_error api (fun ri => path_exists api rest ri)
    pre rt post hpre (by simp [get_includer, hmiss])

/-- Witness for C10's amended claim: a relationship whose sole declared
remote type `B` is unregistered makes `path_exists` raise the lookup
error. -/
theorem path_exists_unregistered_remote_raises_witness :
    path_exists apiEmptyDbg ["r"] incSolo = .error .keyError :=
  path_exists_unregistered_remote_raises apiEmptyDbg incSolo "r" [] relSoloB
    [] "B" [] rfl rfl (fun rtp h => absurd h (List.not_mem_nil rtp)) rfl
